import Mathlib

/-
Verification of the Hive script-runner adapter (src/runner.py).

The adapter is a linear pipeline: validate argument count, read and
JSON-parse the input file, load the user script as a module, check for a
callable entry point named run, call it, type-check the result, and
serialize the result to the output file.  Every failure after argument
validation is converted by write_error into a structured output object
with the single key __error and exit code 1.

The embedding below models Python/JSON values as inductive types, the
filesystem and importlib effects as an explicit environment record, and
the whole invocation as a pure function from the argument vector and the
environment to an outcome record (exit code, the sequence of write
attempts on the output path, the stderr lines, and flags recording
whether the script module was executed and whether run was called).
-/

/-- A JSON document value: null, booleans, numbers (integral case),
strings, arrays and objects. -/
inductive JsonValue where
  | null : JsonValue
  | bool (b : Bool) : JsonValue
  | num (n : Int) : JsonValue
  | str (s : String) : JsonValue
  | arr (elems : List JsonValue) : JsonValue
  | obj (members : List (String × JsonValue)) : JsonValue

/-- A Python dictionary key as far as json.dump is concerned: the basic
types str, int, bool and None are coerced to strings; any other key type
(represented opaquely by its type name) makes json.dump raise TypeError. -/
inductive PyKey where
  | none : PyKey
  | bool (b : Bool) : PyKey
  | int (n : Int) : PyKey
  | str (s : String) : PyKey
  | other (tn : String) : PyKey

/-- A Python value as returned by the user run function: JSON-native
values, lists, dicts, and opaque rich objects carrying their type name
and their str() representation. -/
inductive PyValue where
  | none : PyValue
  | bool (b : Bool) : PyValue
  | int (n : Int) : PyValue
  | str (s : String) : PyValue
  | list (xs : List PyValue) : PyValue
  | dict (kvs : List (PyKey × PyValue)) : PyValue
  | obj (tn sr : String) : PyValue

/-- isinstance(result, dict) from src/runner.py line 60. -/
def PyValue.isDict : PyValue → Bool
  | .dict _ => true
  | _ => false

/-- type(result).__name__ from src/runner.py line 61. -/
def typeName : PyValue → String
  | .none => "NoneType"
  | .bool _ => "bool"
  | .int _ => "int"
  | .str _ => "str"
  | .list _ => "list"
  | .dict _ => "dict"
  | .obj tn _ => tn

/-- Key coercion performed by json.dump on dictionary keys: basic keys
are turned into strings, any other key raises TypeError. -/
def serKey : PyKey → Except String String
  | .str s => .ok s
  | .int n => .ok (toString n)
  | .bool true => .ok "true"
  | .bool false => .ok "false"
  | .none => .ok "null"
  | .other tn => .error ("keys must be str, int, float, bool or None, not " ++ tn)

mutual
/-- json.dump(result, f, default=str) from src/runner.py line 67, viewed
as a partial conversion of a Python value to the JSON value actually
written: values with no native JSON representation are coerced to their
str() form via the default=str fallback, while a non-basic dictionary
key still raises TypeError (default applies to values only, not keys). -/
def pySerialize : PyValue → Except String JsonValue
  | .none => .ok .null
  | .bool b => .ok (.bool b)
  | .int n => .ok (.num n)
  | .str s => .ok (.str s)
  | .list xs =>
      match pySerializeList xs with
      | .ok ys => .ok (.arr ys)
      | .error e => .error e
  | .dict kvs =>
      match pySerializeDict kvs with
      | .ok ms => .ok (.obj ms)
      | .error e => .error e
  | .obj _ sr => .ok (.str sr)

/-- Serialization of a Python list, element by element. -/
def pySerializeList : List PyValue → Except String (List JsonValue)
  | [] => .ok []
  | x :: xs =>
      match pySerialize x, pySerializeList xs with
      | .ok y, .ok ys => .ok (y :: ys)
      | .error e, _ => .error e
      | _, .error e => .error e

/-- Serialization of the entries of a Python dict: each key is coerced
by serKey, each value serialized recursively. -/
def pySerializeDict : List (PyKey × PyValue) → Except String (List (String × JsonValue))
  | [] => .ok []
  | (k, v) :: kvs =>
      match serKey k, pySerialize v, pySerializeDict kvs with
      | .ok ks, .ok y, .ok ms => .ok ((ks, y) :: ms)
      | .error e, _, _ => .error e
      | _, .error e, _ => .error e
      | _, _, .error e => .error e
end

mutual
/-- The Python value json.load produces for a given JSON document value
(src/runner.py line 30): objects become dicts with string keys, arrays
become lists, scalars map to their Python counterparts. -/
def pyOfJson : JsonValue → PyValue
  | .null => .none
  | .bool b => .bool b
  | .num n => .int n
  | .str s => .str s
  | .arr xs => .list (pyOfJsonList xs)
  | .obj kvs => .dict (pyOfJsonObj kvs)

/-- Element-wise decoding of a JSON array. -/
def pyOfJsonList : List JsonValue → List PyValue
  | [] => []
  | x :: xs => pyOfJson x :: pyOfJsonList xs

/-- Entry-wise decoding of a JSON object; keys are Python strings. -/
def pyOfJsonObj : List (String × JsonValue) → List (PyKey × PyValue)
  | [] => []
  | (k, v) :: kvs => (.str k, pyOfJson v) :: pyOfJsonObj kvs
end

/-- Whether a single dictionary key is of a type json.dump accepts. -/
def keyIsBasic : PyKey → Bool
  | .other _ => false
  | _ => true

mutual
/-- All dictionary keys occurring anywhere inside a Python value are of
basic (json-coercible) type.  This is the only way json.dump with
default=str can fail on a finite value. -/
def basicKeys : PyValue → Bool
  | .list xs => basicKeysList xs
  | .dict kvs => basicKeysDict kvs
  | _ => true

/-- basicKeys over a list of values. -/
def basicKeysList : List PyValue → Bool
  | [] => true
  | x :: xs => basicKeys x && basicKeysList xs

/-- basicKeys over dict entries: the key itself is basic and the value
recursively satisfies basicKeys. -/
def basicKeysDict : List (PyKey × PyValue) → Bool
  | [] => true
  | (k, v) :: kvs => keyIsBasic k && basicKeys v && basicKeysDict kvs
end

/-- One attempt to open the output path for writing: a completed write
of a serialized JSON value, a write interrupted by a serialization
failure after the file was opened (and truncated), or an open call that
itself raised so the file was never opened. -/
inductive WriteAttempt where
  | ok (content : JsonValue) : WriteAttempt
  | partialWrite : WriteAttempt
  | openFail : WriteAttempt

/-- The observable outcome of one adapter invocation: the process exit
code, the ordered write attempts on the output path, the lines printed
to stderr, and whether the user script module was executed and whether
its run function was called. -/
structure Outcome where
  exitCode : Nat
  writes : List WriteAttempt
  stderr : List String
  loadedScript : Bool
  calledRun : Bool

/-- write_error from src/runner.py lines 73 to 80: try to write the
single-key __error object to the output path; if that open fails, fall
back to printing the message to stderr.  Returns the write attempts and
stderr lines it produces; it never raises. -/
def write_error (writable : Bool) (message : String) : List WriteAttempt × List String :=
  if writable then
    ([.ok (.obj [("__error", .str message)])], [])
  else
    ([.openFail], [message])

/-- An error exit of main: write_error followed by sys.exit(1), with the
given script-loaded and run-called flags. -/
def errOutcome (writable : Bool) (message : String) (ls cr : Bool) : Outcome :=
  { exitCode := 1
    writes := (write_error writable message).1
    stderr := (write_error writable message).2
    loadedScript := ls
    calledRun := cr }

/-- The usage line printed to stderr on argument-count violation
(src/runner.py line 20). -/
def usageLine : String := "Usage: runner.py <script_path> <input_path> <output_path>"

/-- What calling the user run function does: raise an exception (with
its detail text and formatted traceback) or return a Python value. -/
inductive ExecOutcome where
  | raises (detail trace : String) : ExecOutcome
  | returns (v : PyValue) : ExecOutcome

/-- The loaded user script module as main inspects it: whether it has a
run attribute, whether that attribute is callable, and the behaviour of
calling it on the decoded input value. -/
structure ModuleDef where
  hasRun : Bool
  runCallable : Bool
  runFn : JsonValue → ExecOutcome

/-- The import spec returned by spec_from_file_location when it is not
None and has a loader: executing the module either raises during the
script top level (detail and traceback) or yields the module. -/
structure ModuleSpec where
  execModule : Except (String × String) ModuleDef

/-- The external environment of one invocation: what opening and
JSON-parsing the input path yields, what spec_from_file_location yields
(none models spec is None or spec.loader is None), whether the output
path can be opened for writing, and the detail text of the exception
when that open fails. -/
structure Env where
  readInput : Except String JsonValue
  specResult : Option ModuleSpec
  outputWritable : Bool
  openWriteErrDetail : String

/-- runnerMain models main from src/runner.py lines 18 to 70, as a function from the
argument vector (sys.argv, program name included) and the environment to
the invocation outcome.  The branch structure follows the source line by
line: argument-count check, input loading, script loading, entry-point
check, execution, result-type check, output writing. -/
def runnerMain (argv : List String) (env : Env) : Outcome :=
  match argv with
  | [_, script_path, _input_path, _output_path] =>
    match env.readInput with
    | .error e => errOutcome env.outputWritable ("Failed to read inputs: " ++ e) false false
    | .ok inputs =>
      match env.specResult with
      | none => errOutcome env.outputWritable ("Cannot load script: " ++ script_path) false false
      | some spec =>
        match spec.execModule with
        | .error (e, tb) =>
            errOutcome env.outputWritable
              ("Failed to load script: " ++ e ++ "\n" ++ tb) true false
        | .ok module =>
          if !module.hasRun || !module.runCallable then
            errOutcome env.outputWritable
              "Script must define a callable `run(inputs)` function" true false
          else
            match module.runFn inputs with
            | .raises e tb =>
                errOutcome env.outputWritable
                  ("Script error: " ++ e ++ "\n" ++ tb) true true
            | .returns result =>
              if !result.isDict then
                errOutcome env.outputWritable
                  ("run() must return a dict, got " ++ typeName result) true true
              else
                if env.outputWritable then
                  match pySerialize result with
                  | .ok v =>
                      { exitCode := 0, writes := [.ok v], stderr := []
                        loadedScript := true, calledRun := true }
                  | .error d =>
                      { exitCode := 1
                        writes := .partialWrite ::
                          (write_error true ("Failed to write output: " ++ d)).1
                        stderr := (write_error true ("Failed to write output: " ++ d)).2
                        loadedScript := true, calledRun := true }
                else
                  { exitCode := 1
                    writes := .openFail ::
                      (write_error false
                        ("Failed to write output: " ++ env.openWriteErrDetail)).1
                    stderr := (write_error false
                      ("Failed to write output: " ++ env.openWriteErrDetail)).2
                    loadedScript := true, calledRun := true }
  | _ =>
    { exitCode := 1, writes := [], stderr := [usageLine]
      loadedScript := false, calledRun := false }

/-- Number of times the output path is actually opened for writing in a
list of write attempts (an open call that raised did not open it). -/
def countOpens (ws : List WriteAttempt) : Nat :=
  (ws.filter fun w => match w with
    | .ok _ => true
    | .partialWrite => true
    | .openFail => false).length

/-- The module name main passes to spec_from_file_location
(src/runner.py line 37): the fixed string literal user_script,
independent of the invocation. -/
def moduleNameFor (_argv : List String) (_env : Env) : String := "user_script"

/- Concrete sample invocations used by the witnesses below. -/

/-- A well-formed argument vector of four entries. -/
def argvSample : List String := ["runner.py", "script.py", "in.json", "out.json"]

/-- A module whose run doubles the field x of its input into y. -/
def moduleDouble : ModuleDef :=
  { hasRun := true, runCallable := true
    runFn := fun _ => .returns (pyOfJson (.obj [("y", .num 4)])) }

/-- A module lacking a run attribute. -/
def moduleNoRun : ModuleDef :=
  { hasRun := false, runCallable := false, runFn := fun _ => .returns .none }

/-- A module whose run returns a dict with a tuple key, on which
json.dump raises even with default=str. -/
def moduleBadKeys : ModuleDef :=
  { hasRun := true, runCallable := true
    runFn := fun _ => .returns (.dict [(.other "tuple", .int 3)]) }

/-- A module whose run raises ValueError bad. -/
def moduleRaises : ModuleDef :=
  { hasRun := true, runCallable := true
    runFn := fun _ => .raises "bad" "Traceback (most recent call last): ..." }

/-- A module whose run returns the integer 7 instead of a dict. -/
def moduleReturnsInt : ModuleDef :=
  { hasRun := true, runCallable := true, runFn := fun _ => .returns (.int 7) }

/-- A module whose run returns a dict containing a rich object leaf. -/
def moduleRich : ModuleDef :=
  { hasRun := true, runCallable := true
    runFn := fun _ => .returns (.dict [(.str "a", .obj "Foo" "Foo instance")]) }

/-- An environment wrapping a given module, with readable input and a
writable output path. -/
def envWith (m : ModuleDef) : Env :=
  { readInput := .ok (.obj [("x", .num 2)])
    specResult := some { execModule := .ok m }
    outputWritable := true
    openWriteErrDetail := "Permission denied" }

/-- An environment whose input path is missing. -/
def envMissingInput : Env :=
  { readInput := .error "Errno 2 No such file or directory: in.json"
    specResult := some { execModule := .ok moduleDouble }
    outputWritable := true
    openWriteErrDetail := "Permission denied" }

/-- An environment whose output path cannot be opened for writing. -/
def envUnwritable : Env :=
  { readInput := .ok (.obj [("x", .num 2)])
    specResult := some { execModule := .ok moduleDouble }
    outputWritable := false
    openWriteErrDetail := "Permission denied" }

/- Helper lemmas shared by the claim theorems. -/

mutual
/-- JSON round trip: a value that json.load decoded from a JSON document
serializes back (with default=str) to that same document value. -/
theorem roundTrip : (v : JsonValue) → pySerialize (pyOfJson v) = .ok v
  | .null => rfl
  | .bool _ => rfl
  | .num _ => rfl
  | .str _ => rfl
  | .arr xs => by
      simp [pyOfJson, pySerialize, roundTripList xs]
  | .obj kvs => by
      simp [pyOfJson, pySerialize, roundTripObj kvs]

/-- Round trip, array elements. -/
theorem roundTripList : (xs : List JsonValue) → pySerializeList (pyOfJsonList xs) = .ok xs
  | [] => rfl
  | x :: xs => by
      simp [pyOfJsonList, pySerializeList, roundTrip x, roundTripList xs]

/-- Round trip, object members. -/
theorem roundTripObj : (kvs : List (String × JsonValue)) →
    pySerializeDict (pyOfJsonObj kvs) = .ok kvs
  | [] => rfl
  | (k, v) :: kvs => by
      simp [pyOfJsonObj, pySerializeDict, serKey, roundTrip v, roundTripObj kvs]
end

mutual
/-- With default=str, serialization succeeds on every value all of whose
dictionary keys are of basic type. -/
theorem serializeTotal : (v : PyValue) → basicKeys v = true →
    ∃ u, pySerialize v = .ok u
  | .none, _ => ⟨.null, rfl⟩
  | .bool b, _ => ⟨.bool b, rfl⟩
  | .int n, _ => ⟨.num n, rfl⟩
  | .str s, _ => ⟨.str s, rfl⟩
  | .list xs, h => by
      obtain ⟨us, hus⟩ := serializeTotalList xs (by simpa [basicKeys] using h)
      exact ⟨.arr us, by simp [pySerialize, hus]⟩
  | .dict kvs, h => by
      obtain ⟨ms, hms⟩ := serializeTotalDict kvs (by simpa [basicKeys] using h)
      exact ⟨.obj ms, by simp [pySerialize, hms]⟩
  | .obj _ sr, _ => ⟨.str sr, rfl⟩

/-- serializeTotal, list case. -/
theorem serializeTotalList : (xs : List PyValue) → basicKeysList xs = true →
    ∃ us, pySerializeList xs = .ok us
  | [], _ => ⟨[], rfl⟩
  | x :: xs, h => by
      rw [basicKeysList, Bool.and_eq_true] at h
      obtain ⟨u, hu⟩ := serializeTotal x h.1
      obtain ⟨us, hus⟩ := serializeTotalList xs h.2
      exact ⟨u :: us, by simp [pySerializeList, hu, hus]⟩

/-- serializeTotal, dict-entry case. -/
theorem serializeTotalDict : (kvs : List (PyKey × PyValue)) → basicKeysDict kvs = true →
    ∃ ms, pySerializeDict kvs = .ok ms
  | [], _ => ⟨[], rfl⟩
  | (k, v) :: kvs, h => by
      rw [basicKeysDict, Bool.and_eq_true, Bool.and_eq_true] at h
      obtain ⟨⟨hk, hv⟩, hrest⟩ := h
      obtain ⟨u, hu⟩ := serializeTotal v hv
      obtain ⟨ms, hms⟩ := serializeTotalDict kvs hrest
      have hks : ∃ ks, serKey k = .ok ks := by
        cases k with
        | none => exact ⟨"null", rfl⟩
        | bool b => cases b with
          | true => exact ⟨"true", rfl⟩
          | false => exact ⟨"false", rfl⟩
        | int n => exact ⟨toString n, rfl⟩
        | str s => exact ⟨s, rfl⟩
        | other tn => simp [keyIsBasic] at hk
      obtain ⟨ks, hks⟩ := hks
      exact ⟨(ks, u) :: ms, by simp [pySerializeDict, hks, hu, hms]⟩
end

/-- A dict produced by decoding a JSON object serializes back to that
object; restatement of roundTrip at an object, in the form in which the
scrutinee appears inside runnerMain. -/
theorem serializeDictOfObj (V : List (String × JsonValue)) :
    pySerialize (PyValue.dict (pyOfJsonObj V)) = .ok (.obj V) := by
  have h := roundTrip (.obj V)
  rwa [pyOfJson] at h

/-- Case analysis on a complete invocation with a well-formed argument
vector: the outcome is an error exit through write_error, a successful
single write with exit code 0, a serialization failure after the output
file was opened followed by the write_error fallback, or a failed open
of the output path followed by the write_error fallback. -/
theorem runnerMain_shape (p sp ip op : String) (env : Env) :
    (∃ msg ls cr, runnerMain [p, sp, ip, op] env = errOutcome env.outputWritable msg ls cr) ∨
    (∃ v, env.outputWritable = true ∧
      runnerMain [p, sp, ip, op] env =
        { exitCode := 0, writes := [.ok v], stderr := []
          loadedScript := true, calledRun := true }) ∨
    (∃ msg, env.outputWritable = true ∧
      runnerMain [p, sp, ip, op] env =
        { exitCode := 1, writes := .partialWrite :: (write_error true msg).1
          stderr := (write_error true msg).2
          loadedScript := true, calledRun := true }) ∨
    (∃ msg, env.outputWritable = false ∧
      runnerMain [p, sp, ip, op] env =
        { exitCode := 1, writes := .openFail :: (write_error false msg).1
          stderr := (write_error false msg).2
          loadedScript := true, calledRun := true }) := by
  obtain ⟨ri, sr, ow, od⟩ := env
  cases ri with
  | error e => exact .inl ⟨_, _, _, rfl⟩
  | ok j =>
    cases sr with
    | none => exact .inl ⟨_, _, _, rfl⟩
    | some spec =>
      obtain ⟨em⟩ := spec
      cases em with
      | error etb =>
          obtain ⟨e, tb⟩ := etb
          exact .inl ⟨_, _, _, rfl⟩
      | ok m =>
        by_cases hrun : (!m.hasRun || !m.runCallable) = true
        · refine .inl ⟨"Script must define a callable `run(inputs)` function", true, false, ?_⟩
          simp [runnerMain, hrun]
        · rw [Bool.not_eq_true] at hrun
          cases hex : m.runFn j with
          | raises e tb =>
              refine .inl ⟨"Script error: " ++ e ++ "\n" ++ tb, true, true, ?_⟩
              simp [runnerMain, hrun, hex]
          | returns result =>
            by_cases hd : (!result.isDict) = true
            · refine .inl ⟨"run() must return a dict, got " ++ typeName result, true, true, ?_⟩
              simp [runnerMain, hrun, hex, hd]
            · rw [Bool.not_eq_true] at hd
              cases ow with
              | false =>
                  refine .inr (.inr (.inr ⟨"Failed to write output: " ++ od, rfl, ?_⟩))
                  simp [runnerMain, hrun, hex, hd]
              | true =>
                cases hser : pySerialize result with
                | ok v =>
                    refine .inr (.inl ⟨v, rfl, ?_⟩)
                    simp [runnerMain, hrun, hex, hd, hser]
                | error d =>
                    refine .inr (.inr (.inl ⟨"Failed to write output: " ++ d, rfl, ?_⟩))
                    simp [runnerMain, hrun, hex, hd, hser]

/-- A second, distinct well-formed argument vector. -/
def argvSampleB : List String := ["runner.py", "other.py", "in2.json", "out2.json"]

/-- C1: for an invocation with exactly three arguments, a readable input
file holding any valid JSON value, and a script whose callable run
returns the JSON-object value V on the decoded input, the adapter
performs exactly one completed write to the output path, whose content
is V JSON-serialized, and the exit code is 0. -/
theorem C1_success_writes_result (argv : List String) (env : Env)
    (p sp ip op : String) (spec : ModuleSpec) (m : ModuleDef) (j : JsonValue)
    (V : List (String × JsonValue))
    (hargv : argv = [p, sp, ip, op])
    (hin : env.readInput = .ok j)
    (hspec : env.specResult = some spec)
    (hexec : spec.execModule = .ok m)
    (hrun : m.hasRun = true) (hcall : m.runCallable = true)
    (hres : m.runFn j = .returns (pyOfJson (.obj V)))
    (hw : env.outputWritable = true) :
    runnerMain argv env =
      { exitCode := 0, writes := [.ok (.obj V)], stderr := []
        loadedScript := true, calledRun := true } := by
  subst hargv
  simp [runnerMain, hin, hspec, hexec, hrun, hcall, hres, hw, pyOfJson,
    PyValue.isDict, serializeDictOfObj]

/-- Witness for C1 at a concrete invocation: input x equals 2, run
returning the object with y equal to 4. -/
theorem C1_success_writes_result_witness :
    runnerMain argvSample (envWith moduleDouble) =
      { exitCode := 0, writes := [.ok (.obj [("y", .num 4)])], stderr := []
        loadedScript := true, calledRun := true } :=
  C1_success_writes_result argvSample (envWith moduleDouble)
    "runner.py" "script.py" "in.json" "out.json"
    { execModule := .ok moduleDouble } moduleDouble
    (.obj [("x", .num 2)]) [("y", .num 4)]
    rfl rfl rfl rfl rfl rfl rfl rfl

/-- C2 counterexample: the claim names the exact message with no
backticks, but at a module lacking run the adapter writes the message
with backticks around run(inputs), a different string. -/
theorem C2_counterexample :
    runnerMain argvSample (envWith moduleNoRun) =
      { exitCode := 1
        writes := [.ok (.obj [("__error",
          .str "Script must define a callable `run(inputs)` function")])]
        stderr := [], loadedScript := true, calledRun := false } ∧
    "Script must define a callable `run(inputs)` function" ≠
      "Script must define a callable run(inputs) function" := by
  exact ⟨rfl, by decide⟩

/-- C2 as amended: when the loaded module lacks a run attribute or its
run attribute is not callable, the output file contains exactly the
single-key object with the backticked message and the exit code is 1. -/
theorem C2_no_run_message (argv : List String) (env : Env)
    (p sp ip op : String) (spec : ModuleSpec) (m : ModuleDef) (j : JsonValue)
    (hargv : argv = [p, sp, ip, op])
    (hin : env.readInput = .ok j)
    (hspec : env.specResult = some spec)
    (hexec : spec.execModule = .ok m)
    (hnr : m.hasRun = false ∨ m.runCallable = false)
    (hw : env.outputWritable = true) :
    runnerMain argv env =
      { exitCode := 1
        writes := [.ok (.obj [("__error",
          .str "Script must define a callable `run(inputs)` function")])]
        stderr := [], loadedScript := true, calledRun := false } := by
  subst hargv
  have hcond : (!m.hasRun || !m.runCallable) = true := by
    rcases hnr with h | h <;> simp [h]
  simp [runnerMain, hin, hspec, hexec, hcond, hw, errOutcome, write_error]

/-- Witness for C2 as amended, at a module with no run attribute. -/
theorem C2_no_run_message_witness :
    runnerMain argvSample (envWith moduleNoRun) =
      { exitCode := 1
        writes := [.ok (.obj [("__error",
          .str "Script must define a callable `run(inputs)` function")])]
        stderr := [], loadedScript := true, calledRun := false } :=
  C2_no_run_message argvSample (envWith moduleNoRun)
    "runner.py" "script.py" "in.json" "out.json"
    { execModule := .ok moduleNoRun } moduleNoRun (.obj [("x", .num 2)])
    rfl rfl rfl rfl (Or.inl rfl) rfl

/-- C3 counterexample: when run returns a dict with a tuple key,
json.dump raises after the output file is already open, and write_error
then opens it a second time, so the output path is opened for writing
twice in one invocation. -/
theorem C3_counterexample :
    countOpens (runnerMain argvSample (envWith moduleBadKeys)).writes = 2 ∧
    countOpens (runnerMain argvSample (envWith moduleBadKeys)).writes ≠ 1 := by
  exact ⟨rfl, by decide⟩

/-- C3 as amended: past argument validation the adapter opens the output
path for writing at most twice; it opens it at least once whenever the
output path is writable; and the only way to reach two opens is the
write whose serialization failed after the file was opened, followed by
the write_error fallback. -/
theorem C3_bounded_writes (argv : List String) (env : Env)
    (p sp ip op : String)
    (hargv : argv = [p, sp, ip, op]) :
    countOpens (runnerMain argv env).writes ≤ 2 ∧
    (env.outputWritable = true → 1 ≤ countOpens (runnerMain argv env).writes) ∧
    (countOpens (runnerMain argv env).writes = 2 →
      ∃ ws, (runnerMain argv env).writes = .partialWrite :: ws) := by
  subst hargv
  rcases runnerMain_shape p sp ip op env with
    ⟨msg, ls, cr, h⟩ | ⟨v, hw, h⟩ | ⟨msg, hw, h⟩ | ⟨msg, hw, h⟩
  · cases how : env.outputWritable <;>
      simp [h, how, errOutcome, write_error, countOpens]
  · simp [h, hw, countOpens]
  · simp [h, hw, countOpens, write_error]
  · simp [h, hw, countOpens, write_error]

/-- Witness for C3 as amended, at the tuple-key invocation. -/
theorem C3_bounded_writes_witness :
    countOpens (runnerMain argvSample (envWith moduleBadKeys)).writes ≤ 2 ∧
    ((envWith moduleBadKeys).outputWritable = true →
      1 ≤ countOpens (runnerMain argvSample (envWith moduleBadKeys)).writes) ∧
    (countOpens (runnerMain argvSample (envWith moduleBadKeys)).writes = 2 →
      ∃ ws, (runnerMain argvSample (envWith moduleBadKeys)).writes =
        .partialWrite :: ws) :=
  C3_bounded_writes argvSample (envWith moduleBadKeys)
    "runner.py" "script.py" "in.json" "out.json" rfl

/-- C4: with an argument count different from three the adapter prints
the usage line to stderr, exits with code 1, and performs no write
attempt on the output path at all. -/
theorem C4_usage_error (argv : List String) (env : Env)
    (h : argv.length ≠ 4) :
    runnerMain argv env =
      { exitCode := 1, writes := [], stderr := [usageLine]
        loadedScript := false, calledRun := false } := by
  match argv, h with
  | [], _ => rfl
  | [a], _ => rfl
  | [a, b], _ => rfl
  | [a, b, c], _ => rfl
  | [a, b, c, d], h => exact absurd rfl h
  | a :: b :: c :: d :: e :: rest, _ => rfl

/-- Witness for C4 at the empty argument vector. -/
theorem C4_usage_error_witness :
    runnerMain [] (envWith moduleDouble) =
      { exitCode := 1, writes := [], stderr := [usageLine]
        loadedScript := false, calledRun := false } :=
  C4_usage_error [] (envWith moduleDouble) (by decide)

/-- C5: when opening or JSON-parsing the input file fails, the adapter
writes the single-key error object whose message is the prefix Failed to
read inputs followed by the failure detail, exits with code 1, and
neither executes the script module nor calls run. -/
theorem C5_input_failure (argv : List String) (env : Env)
    (p sp ip op e : String)
    (hargv : argv = [p, sp, ip, op])
    (hin : env.readInput = .error e)
    (hw : env.outputWritable = true) :
    runnerMain argv env =
      { exitCode := 1
        writes := [.ok (.obj [("__error",
          .str ("Failed to read inputs: " ++ e))])]
        stderr := [], loadedScript := false, calledRun := false } := by
  subst hargv
  simp [runnerMain, hin, hw, errOutcome, write_error]

/-- Witness for C5 at a missing input file. -/
theorem C5_input_failure_witness :
    runnerMain argvSample envMissingInput =
      { exitCode := 1
        writes := [.ok (.obj [("__error",
          .str ("Failed to read inputs: " ++
            "Errno 2 No such file or directory: in.json"))])]
        stderr := [], loadedScript := false, calledRun := false } :=
  C5_input_failure argvSample envMissingInput
    "runner.py" "script.py" "in.json" "out.json"
    "Errno 2 No such file or directory: in.json" rfl rfl rfl

/-- C6: when the call of run raises, the exception is caught and the
output file contains the single-key error object whose message is the
prefix Script error followed by the exception detail, a newline and the
formatted traceback, with exit code 1. -/
theorem C6_script_error (argv : List String) (env : Env)
    (p sp ip op : String) (spec : ModuleSpec) (m : ModuleDef) (j : JsonValue)
    (d tb : String)
    (hargv : argv = [p, sp, ip, op])
    (hin : env.readInput = .ok j)
    (hspec : env.specResult = some spec)
    (hexec : spec.execModule = .ok m)
    (hrun : m.hasRun = true) (hcall : m.runCallable = true)
    (hraise : m.runFn j = .raises d tb)
    (hw : env.outputWritable = true) :
    runnerMain argv env =
      { exitCode := 1
        writes := [.ok (.obj [("__error",
          .str ("Script error: " ++ d ++ "\n" ++ tb))])]
        stderr := [], loadedScript := true, calledRun := true } := by
  subst hargv
  simp [runnerMain, hin, hspec, hexec, hrun, hcall, hraise, hw,
    errOutcome, write_error]

/-- Witness for C6 at a run that raises ValueError bad. -/
theorem C6_script_error_witness :
    runnerMain argvSample (envWith moduleRaises) =
      { exitCode := 1
        writes := [.ok (.obj [("__error",
          .str ("Script error: " ++ "bad" ++ "\n" ++
            "Traceback (most recent call last): ..."))])]
        stderr := [], loadedScript := true, calledRun := true } :=
  C6_script_error argvSample (envWith moduleRaises)
    "runner.py" "script.py" "in.json" "out.json"
    { execModule := .ok moduleRaises } moduleRaises (.obj [("x", .num 2)])
    "bad" "Traceback (most recent call last): ..."
    rfl rfl rfl rfl rfl rfl rfl rfl

/-- C7: when run returns a value that is not a dict, the output file
contains the single-key error object whose message is exactly the text
run() must return a dict, got followed by the name of the returned
value's type, with exit code 1. -/
theorem C7_result_type_error (argv : List String) (env : Env)
    (p sp ip op : String) (spec : ModuleSpec) (m : ModuleDef) (j : JsonValue)
    (r : PyValue)
    (hargv : argv = [p, sp, ip, op])
    (hin : env.readInput = .ok j)
    (hspec : env.specResult = some spec)
    (hexec : spec.execModule = .ok m)
    (hrun : m.hasRun = true) (hcall : m.runCallable = true)
    (hres : m.runFn j = .returns r)
    (hnd : r.isDict = false)
    (hw : env.outputWritable = true) :
    runnerMain argv env =
      { exitCode := 1
        writes := [.ok (.obj [("__error",
          .str ("run() must return a dict, got " ++ typeName r))])]
        stderr := [], loadedScript := true, calledRun := true } := by
  subst hargv
  simp [runnerMain, hin, hspec, hexec, hrun, hcall, hres, hnd, hw,
    errOutcome, write_error]

/-- Witness for C7 at a run returning the integer 7, whose type name is
int. -/
theorem C7_result_type_error_witness :
    runnerMain argvSample (envWith moduleReturnsInt) =
      { exitCode := 1
        writes := [.ok (.obj [("__error",
          .str ("run() must return a dict, got " ++ typeName (.int 7)))])]
        stderr := [], loadedScript := true, calledRun := true } :=
  C7_result_type_error argvSample (envWith moduleReturnsInt)
    "runner.py" "script.py" "in.json" "out.json"
    { execModule := .ok moduleReturnsInt } moduleReturnsInt
    (.obj [("x", .num 2)]) (.int 7)
    rfl rfl rfl rfl rfl rfl rfl rfl rfl

/-- C8: when run returns a dict all of whose dictionary keys are of
basic type, serialization with the default=str fallback cannot fail: the
invocation succeeds with exit code 0 and one completed write, and every
rich-object leaf is coerced to its str() representation. -/
theorem C8_coercion_total (argv : List String) (env : Env)
    (p sp ip op : String) (spec : ModuleSpec) (m : ModuleDef) (j : JsonValue)
    (r : PyValue)
    (hargv : argv = [p, sp, ip, op])
    (hin : env.readInput = .ok j)
    (hspec : env.specResult = some spec)
    (hexec : spec.execModule = .ok m)
    (hrun : m.hasRun = true) (hcall : m.runCallable = true)
    (hres : m.runFn j = .returns r)
    (hd : r.isDict = true)
    (hk : basicKeys r = true)
    (hw : env.outputWritable = true) :
    (∃ v, pySerialize r = .ok v ∧
      runnerMain argv env =
        { exitCode := 0, writes := [.ok v], stderr := []
          loadedScript := true, calledRun := true }) ∧
    (∀ tn sr, pySerialize (PyValue.obj tn sr) = .ok (.str sr)) := by
  subst hargv
  obtain ⟨v, hv⟩ := serializeTotal r hk
  refine ⟨⟨v, hv, ?_⟩, fun tn sr => rfl⟩
  simp [runnerMain, hin, hspec, hexec, hrun, hcall, hres, hd, hw, hv]

/-- Witness for C8 at a run returning a dict with a rich-object leaf. -/
theorem C8_coercion_total_witness :
    (∃ v, pySerialize (.dict [(.str "a", .obj "Foo" "Foo instance")]) = .ok v ∧
      runnerMain argvSample (envWith moduleRich) =
        { exitCode := 0, writes := [.ok v], stderr := []
          loadedScript := true, calledRun := true }) ∧
    (∀ tn sr, pySerialize (PyValue.obj tn sr) = .ok (.str sr)) :=
  C8_coercion_total argvSample (envWith moduleRich)
    "runner.py" "script.py" "in.json" "out.json"
    { execModule := .ok moduleRich } moduleRich (.obj [("x", .num 2)])
    (.dict [(.str "a", .obj "Foo" "Foo instance")])
    rfl rfl rfl rfl rfl rfl rfl rfl rfl rfl

/-- C9 counterexample: two distinct invocations (different argument
vectors and environments) are both loaded under the very same module
name, so the module name is not distinct per invocation. -/
theorem C9_counterexample :
    moduleNameFor argvSample (envWith moduleDouble) =
      moduleNameFor argvSampleB envMissingInput ∧
    argvSample ≠ argvSampleB := by
  exact ⟨rfl, by decide⟩

/-- C9 as amended: the script is always loaded under the one fixed
module name user_script, identical across all invocations; isolation
comes from executing the script in a fresh module object in a fresh
process, not from per-invocation distinct naming. -/
theorem C9_fixed_module_name (argv1 argv2 : List String) (env1 env2 : Env) :
    moduleNameFor argv1 env1 = "user_script" ∧
    moduleNameFor argv1 env1 = moduleNameFor argv2 env2 := ⟨rfl, rfl⟩

/-- C10: past argument validation the adapter always terminates with
exit code 0 or 1 (never an uncaught exception), and when the output path
is unwritable every path still exits with code 1, never actually opens
the output path, and surfaces exactly one message on stderr through the
write_error fallback. -/
theorem C10_error_paths_safe (argv : List String) (env : Env)
    (p sp ip op : String)
    (hargv : argv = [p, sp, ip, op]) :
    (runnerMain argv env).exitCode ≤ 1 ∧
    (env.outputWritable = false →
      (runnerMain argv env).exitCode = 1 ∧
      countOpens (runnerMain argv env).writes = 0 ∧
      (runnerMain argv env).stderr.length = 1) := by
  subst hargv
  rcases runnerMain_shape p sp ip op env with
    ⟨msg, ls, cr, h⟩ | ⟨v, hw, h⟩ | ⟨msg, hw, h⟩ | ⟨msg, hw, h⟩
  · cases how : env.outputWritable <;>
      simp [h, how, errOutcome, write_error, countOpens]
  · simp [h, hw]
  · simp [h, hw, countOpens, write_error]
  · simp [h, hw, countOpens, write_error]

/-- Witness for C10 at an unwritable output path. -/
theorem C10_error_paths_safe_witness :
    (runnerMain argvSample envUnwritable).exitCode ≤ 1 ∧
    (envUnwritable.outputWritable = false →
      (runnerMain argvSample envUnwritable).exitCode = 1 ∧
      countOpens (runnerMain argvSample envUnwritable).writes = 0 ∧
      (runnerMain argvSample envUnwritable).stderr.length = 1) :=
  C10_error_paths_safe argvSample envUnwritable
    "runner.py" "script.py" "in.json" "out.json" rfl
